import Mathlib

/-!
Shallow embedding of the luxon session subsystem (src/luxon/core/session.py).

The Python module defines a `Session` mapping object, two persistence
backends (`SessionFile` storing a pickled snapshot in
`<app_root>/tmp/<session_id>.session`, and `SessionRedis` storing it at the
cache key `session:<session_id>` with a server-side TTL), and a module-level
`threading.Lock` named `lock` that every `SessionFile` operation acquires.

Modelling choices:
  * a Python dict is an association list where the first binding wins on
    lookup and assignment overwrites in place (`Dict`);
  * a pickled snapshot is a `Blob`: either a well-formed snapshot of a dict
    or corrupt bytes on which `pickle.load` raises (`pickleLoads` returns
    `Except`);
  * the file system state relevant to one session is the optional content of
    its session file plus the file's modification time (`FileState`); times
    are integers, as the code truncates with `int(...)`;
  * the redis state relevant to one session is the optional value at its
    storage key plus that key's TTL (`RedisState`);
  * each backend operation returns `(result, post-state, trace)`, where the
    trace records lock and I/O events (`Ev`) or redis commands (`RCmd`) in
    the order the code issues them, including on exception paths;
  * exceptions propagate as `Except.error`, and a `try/except: pass` in the
    code becomes a caught branch that yields `Except.ok`.
-/

namespace Luxon

/-- Exceptions this code can raise or swallow. -/
inductive SErr where
  | keyError
  | unpickleError
  | fileNotFound
deriving DecidableEq, Repr

/-- A Python dict with string keys: association list, first binding wins. -/
abbrev Dict (V : Type) := List (String × V)

namespace Dict

/-- `d.get(k)` as an option: the first binding for `k`, if any. -/
def get? {V : Type} : Dict V → String → Option V
  | [], _ => none
  | (k1, v) :: rest, k => if k1 = k then some v else get? rest k

/-- `d[k] = v`: overwrite the binding in place, or append a new one. -/
def setItem {V : Type} : Dict V → String → V → Dict V
  | [], k, v => [(k, v)]
  | (k1, v1) :: rest, k, v =>
      if k1 = k then (k1, v) :: rest else (k1, v1) :: setItem rest k v

/-- `d.update(other)`: assign each of `other`’s bindings in order. -/
def update {V : Type} (d other : Dict V) : Dict V :=
  other.foldl (fun acc p => setItem acc p.1 p.2) d

/-- The keys of the dict, in order. -/
def keys {V : Type} (d : Dict V) : List String := d.map Prod.fst

end Dict

/-- The content of a serialized snapshot: a well-formed pickle of a dict, or
bytes on which `pickle.load` / `pickle.loads` raises. -/
inductive Blob (V : Type) where
  | snapshot (d : Dict V)
  | corrupt
deriving DecidableEq

/-- `pickle.load` / `pickle.loads`: deserialize a blob or raise. -/
def pickleLoads {V : Type} : Blob V → Except SErr (Dict V)
  | .snapshot d => .ok d
  | .corrupt => .error .unpickleError

/-- `pickle.dump` / `pickle.dumps`: serialize a dict (never fails here). -/
def pickleDumps {V : Type} (d : Dict V) : Blob V := .snapshot d

/-- The file-system state of one session file: its content if it exists, and
its last-modification time (`st_mtime`, truncated to an integer). -/
structure FileState (V : Type) where
  content : Option (Blob V)
  mtime : Int
deriving DecidableEq

/-- Events a `SessionFile` operation emits, in program order. -/
inductive Ev where
  | lockAcquire (lockId : Nat)
  | lockRelease (lockId : Nat)
  | flockEx
  | flockUn
  | fileOpenRead
  | fileOpenWrite
  | fileUnlink
deriving DecidableEq, Repr

/-- The module-level `lock = threading.Lock()`: one process-wide lock shared
by every `SessionFile` instance in the process. -/
def globalLock : Nat := 0

namespace SessionFile

/-- `SessionFile.load(self)`.

The code acquires the module lock, then, if the session file exists and
`int(now) - int(st_mtime) > expire`, clears the in-memory dict; then it
re-checks existence of the same file (never deleted in between), opens it,
takes an exclusive `flock`, runs `self._session.update(pickle.load(h))`,
and releases the `flock` and the module lock in `finally` blocks; if the
file does not exist it clears the in-memory dict. -/
def load {V : Type} (data : Dict V) (fs : FileState V) (now expire : Int) :
    Except SErr (Dict V) × FileState V × List Ev :=
  let data1 : Dict V :=
    match fs.content with
    | some _ => if now - fs.mtime > expire then [] else data
    | none => data
  match fs.content with
  | some blob =>
      let tr := [Ev.lockAcquire globalLock, Ev.fileOpenRead, Ev.flockEx]
      match pickleLoads blob with
      | .ok snap =>
          (.ok (data1.update snap), fs, tr ++ [Ev.flockUn, Ev.lockRelease globalLock])
      | .error e =>
          (.error e, fs, tr ++ [Ev.flockUn, Ev.lockRelease globalLock])
  | none =>
      (.ok [], fs, [Ev.lockAcquire globalLock, Ev.lockRelease globalLock])

/-- `SessionFile.save(self)`.

Acquires the module lock, opens the file for binary write (truncating),
takes an exclusive `flock`, pickles the whole dict unconditionally, flushes,
then releases the `flock`, closes the file and releases the module lock in a
`finally` block. -/
def save {V : Type} (data : Dict V) (fs : FileState V) (now : Int) :
    Except SErr Unit × FileState V × List Ev :=
  (.ok (), { content := some (pickleDumps data), mtime := now },
    [Ev.lockAcquire globalLock, Ev.fileOpenWrite, Ev.flockEx, Ev.flockUn,
      Ev.lockRelease globalLock])

/-- `os.unlink` on the session file: raises if the file does not exist. -/
def osUnlink {V : Type} : Option (Blob V) → Except SErr (Option (Blob V))
  | none => .error .fileNotFound
  | some _ => .ok none

/-- `SessionFile.clear(self)`.

Acquires the module lock, clears the in-memory dict, attempts
`os.unlink` on the session file swallowing any exception
(`except Exception: pass`), and releases the module lock in a `finally`
block. -/
def clear {V : Type} (data : Dict V) (fs : FileState V) :
    Except SErr (Dict V) × FileState V × List Ev :=
  let tr := [Ev.lockAcquire globalLock, Ev.fileUnlink, Ev.lockRelease globalLock]
  match osUnlink fs.content with
  | .ok c1 => (.ok [], { fs with content := c1 }, tr)
  | .error _ => (.ok [], fs, tr)

end SessionFile

/-- Redis commands a `SessionRedis` operation issues, in program order. -/
inductive RCmd where
  | rexists
  | rget
  | rset
  | rexpire
  | rdelete
deriving DecidableEq, Repr

/-- The redis state relevant to one session: the value stored at its key
`session:<session_id>`, if any, and that key's TTL. -/
structure RedisState (V : Type) where
  store : Option (Blob V)
  ttl : Option Int
deriving DecidableEq

namespace SessionRedis

/-- `SessionRedis.load(self)`: if the key exists, get it, unpickle and
`self._session.update(...)`; otherwise do nothing. -/
def load {V : Type} (data : Dict V) (rs : RedisState V) :
    Except SErr (Dict V) × RedisState V × List RCmd :=
  match rs.store with
  | some blob =>
      match pickleLoads blob with
      | .ok snap => (.ok (data.update snap), rs, [.rexists, .rget])
      | .error e => (.error e, rs, [.rexists, .rget])
  | none => (.ok data, rs, [.rexists])

/-- `SessionRedis.save(self)`: only when `len(self._session) > 0`, set the
key to the pickled dict, then set its TTL to `expire`. -/
def save {V : Type} (data : Dict V) (rs : RedisState V) (expire : Int) :
    Except SErr Unit × RedisState V × List RCmd :=
  if data.length > 0 then
    (.ok (), { store := some (pickleDumps data), ttl := some expire },
      [.rset, .rexpire])
  else
    (.ok (), rs, [])

/-- `SessionRedis.clear(self)`: clear the in-memory dict, then delete the
key, swallowing any exception. -/
def clear {V : Type} (data : Dict V) (rs : RedisState V) :
    Except SErr (Dict V) × RedisState V × List RCmd :=
  (.ok [], { store := none, ttl := none }, [.rdelete])

end SessionRedis

/-- The backend reference a `Session` holds: `None`, a `SessionFile`, or a
`SessionRedis` (together with the external state it acts on). -/
inductive BackendRef (V : Type) where
  | noBackend
  | file (fs : FileState V)
  | redis (rs : RedisState V)
deriving DecidableEq

namespace Session

/-- `Session.get(self, k, d=None)`: `self._session.get(k, d)` — the stored
value or the default, never raising. -/
def get {V : Type} (data : Dict V) (k : String) (d : Option V) : Option V :=
  match data.get? k with
  | some v => some v
  | none => d

/-- `Session.__getitem__(self, key)`: `self._session[key]` — raises
`KeyError` when the key is absent. -/
def getItem {V : Type} (data : Dict V) (k : String) : Except SErr V :=
  match data.get? k with
  | some v => .ok v
  | none => .error .keyError

/-- `Session.clear(self)`: delegates to the backend when it has a `clear`
attribute (`hasattr(self._backend, 'clear')`); with no backend this is a
no-op that touches nothing. -/
def clear {V : Type} (data : Dict V) :
    BackendRef V → Except SErr (Dict V) × BackendRef V
  | .noBackend => (.ok data, .noBackend)
  | .file fs =>
      let r := SessionFile.clear data fs
      (r.1, .file r.2.1)
  | .redis rs =>
      let r := SessionRedis.clear data rs
      (r.1, .redis r.2.1)

end Session

/-- A Python value that is either a `str` or a `bytes` object (a byte is a
number below 256). Session IDs arrive as either. -/
inductive PyStrBytes where
  | str (s : String)
  | bytes (bs : List Nat)
deriving DecidableEq

/-- Decode bytes as ISO-8859-1: each byte becomes the code point of the same
value. -/
def latin1Decode (bs : List Nat) : String := String.mk (bs.map Char.ofNat)

/-- Modelled from the spec: `luxon.utils.encoding.if_bytes_to_unicode` is
imported by session.py but its module is not under src/. Per the spec the
session ID is normalized to a byte-preserving (Latin-1 class) string, so
bytes are decoded as ISO-8859-1 and strings pass through unchanged. -/
def if_bytes_to_unicode : PyStrBytes → String
  | .str s => s
  | .bytes bs => latin1Decode bs

/-- The lowercase hex digit for a value below 16. -/
def hexDigit (n : Nat) : Char :=
  Char.ofNat (if n < 10 then 48 + n else 87 + n)

/-- How CPython renders one byte inside a `bytes` repr delimited by `delim`
(39 for a single quote, 34 for a double quote): a backslash escape for the
backslash (92) and the delimiter, `\t`/`\n`/`\r` for 9/10/13, the literal
character for other printable ASCII, and a two-digit `\xNN` escape
otherwise. -/
def pyByteEsc (delim b : Nat) : List Char :=
  if b = 92 then [Char.ofNat 92, Char.ofNat 92]
  else if b = delim then [Char.ofNat 92, Char.ofNat b]
  else if b = 9 then [Char.ofNat 92, Char.ofNat 116]
  else if b = 10 then [Char.ofNat 92, Char.ofNat 110]
  else if b = 13 then [Char.ofNat 92, Char.ofNat 114]
  else if 32 ≤ b ∧ b < 127 then [Char.ofNat b]
  else [Char.ofNat 92, Char.ofNat 120, hexDigit (b / 16), hexDigit (b % 16)]

/-- The characters of `repr(bytes)` in CPython: a `b` prefix, then the body
between quote delimiters — single quotes unless the bytes contain a single
quote (39) and no double quote (34). -/
def pyReprBytesChars (bs : List Nat) : List Char :=
  let delim : Nat := if 39 ∈ bs ∧ ¬ 34 ∈ bs then 34 else 39
  Char.ofNat 98 :: Char.ofNat delim ::
    ((bs.map (pyByteEsc delim)).flatten ++ [Char.ofNat delim])

/-- `repr(bytes)`, which is also `str(bytes)` in Python 3. -/
def pyReprBytes (bs : List Nat) : String := String.mk (pyReprBytesChars bs)

/-- What `"%s" % x` produces: the string itself, or the bytes repr when `x`
is a bytes object. -/
def pyStr : PyStrBytes → String
  | .str s => s
  | .bytes bs => pyReprBytes bs

/-- The `session_id` argument of `Session.__init__`: a plain value or a
zero-argument callable producing one. -/
inductive SidArg where
  | val (v : PyStrBytes)
  | producer (f : Unit → PyStrBytes)

/-- The callable check at the top of `Session.__init__`:
`if hasattr(session_id, '__call__'): session_id = session_id()`. -/
def resolveSid : SidArg → PyStrBytes
  | .val v => v
  | .producer f => f ()

namespace Session

/-- The `_session_id` attribute stored on the Session itself:
`if_bytes_to_unicode(session_id, 'ISO-8859-1')` after callable
resolution. -/
def initSessionId (arg : SidArg) : String :=
  if_bytes_to_unicode (resolveSid arg)

/-- The value `Session.__init__` hands to the backend factory:
`backend(int(expire), session_id, self._session)` passes the raw
`session_id` after callable resolution, not the normalized string. -/
def initBackendSid (arg : SidArg) : PyStrBytes :=
  resolveSid arg

end Session

/-- `SessionRedis.__init__`: `self._name = "session:%s" % (self._session_id,)`. -/
def redisKeyOf (sid : PyStrBytes) : String :=
  "session:" ++ pyStr sid

/-- The file name `SessionFile` operates on:
`"%s/tmp/" % g.app_root` followed by `"%s%s.session"` formatting. -/
def fileNameOf (appRoot : String) (sid : PyStrBytes) : String :=
  appRoot ++ "/tmp/" ++ pyStr sid ++ ".session"

/-- A trace is well-bracketed when it starts by acquiring the module lock,
ends by releasing it, and performs no lock operation in between. -/
def isLockEv : Ev → Bool
  | .lockAcquire _ => true
  | .lockRelease _ => true
  | _ => false

/-- Decidable check that a `SessionFile` trace acquires the process-wide
lock first, releases it last, and touches no lock in between. -/
def wellBracketed (tr : List Ev) : Bool :=
  decide (tr.head? = some (Ev.lockAcquire globalLock)) &&
  decide (tr.getLast? = some (Ev.lockRelease globalLock)) &&
  ((tr.drop 1).dropLast.all fun e => ! isLockEv e)

/-! ### Helper lemmas -/

/-- Assigning a fresh key appends the binding at the end. -/
theorem dict_setItem_append {V : Type} (k : String) (v : V) :
    ∀ d : Dict V, k ∉ d.keys → Dict.setItem d k v = d ++ [(k, v)] := by
  intro d
  induction d with
  | nil => intro _; rfl
  | cons p rest ih =>
      intro h
      obtain ⟨k1, v1⟩ := p
      simp only [Dict.keys, List.map_cons, List.mem_cons] at h
      push_neg at h
      have hne : ¬ (k1 = k) := fun hh => h.1 hh.symm
      simp only [Dict.setItem, if_neg hne, List.cons_append, List.cons.injEq,
        true_and]
      exact ih (by simpa [Dict.keys] using h.2)

/-- Folding assignments of bindings with fresh, pairwise distinct keys onto
an accumulator appends them in order. -/
theorem dict_foldl_setItem {V : Type} :
    ∀ (m acc : Dict V), ((acc ++ m).map Prod.fst).Nodup →
      m.foldl (fun a p => Dict.setItem a p.1 p.2) acc = acc ++ m := by
  intro m
  induction m with
  | nil => intro acc _; simp
  | cons p rest ih =>
      intro acc h
      obtain ⟨k, v⟩ := p
      have hk : k ∉ acc.keys := by
        simp only [List.map_append, List.nodup_append] at h
        intro hmem
        exact h.2.2 hmem (by simp)
      simp only [List.foldl_cons]
      rw [dict_setItem_append k v acc hk]
      have h2 : (((acc ++ [(k, v)]) ++ rest).map Prod.fst).Nodup := by
        simpa using h
      have := ih (acc ++ [(k, v)]) h2
      simpa using this

/-- `update` of a snapshot with pairwise distinct keys into an empty dict
reproduces the snapshot exactly. -/
theorem dict_update_nil {V : Type} (m : Dict V) (h : (m.map Prod.fst).Nodup) :
    Dict.update [] m = m := by
  have := dict_foldl_setItem m [] (by simpa using h)
  simpa [Dict.update] using this

/-- Every byte renders to at least one character in a bytes repr. -/
theorem pyByteEsc_length_pos (delim b : Nat) : 0 < (pyByteEsc delim b).length := by
  unfold pyByteEsc
  repeat' split
  all_goals simp

/-- The body of a bytes repr is at least as long as the bytes. -/
theorem length_le_esc_flatten (delim : Nat) :
    ∀ bs : List Nat, bs.length ≤ ((bs.map (pyByteEsc delim)).flatten).length := by
  intro bs
  induction bs with
  | nil => simp
  | cons b rest ih =>
      simp only [List.map_cons, List.flatten_cons, List.length_append,
        List.length_cons]
      have := pyByteEsc_length_pos delim b
      omega

/-- A bytes repr is strictly longer than the Latin-1 decoding of the same
bytes, hence never equal to it. -/
theorem pyReprBytes_ne_latin1 (bs : List Nat) :
    pyReprBytes bs ≠ latin1Decode bs := by
  intro h
  have hlen := congrArg String.length h
  simp only [pyReprBytes, latin1Decode, String.length, pyReprBytesChars,
    List.length_cons, List.length_append, List.length_map] at hlen
  have hbody := length_le_esc_flatten
    (if 39 ∈ bs ∧ ¬ 34 ∈ bs then 34 else 39) bs
  omega

/-! ### Claims -/

/-- C1: claims that when the session file exists and its age exceeds
`expire`, `SessionFile.load` yields an empty mapping while leaving the file
on disk. The file does stay on disk, but the code clears the in-memory dict
and then re-reads the still-present file, so the load returns the stale
snapshot instead of an empty mapping: with file content `[(k, 1)]`, mtime 0,
now 5000 and expire 3600 (age 5000 > 3600), load returns `[(k, 1)]`. -/
theorem C1_expired_file_load_returns_stale_snapshot :
    ((5000 : Int) - (0 : Int) > 3600) ∧
    (SessionFile.load ([] : Dict Nat)
        ⟨some (.snapshot [("k", 1)]), 0⟩ 5000 3600).1 = .ok [("k", 1)] ∧
    Dict.get? ([("k", 1)] : Dict Nat) "k" = some 1 ∧
    (SessionFile.load ([] : Dict Nat)
        ⟨some (.snapshot [("k", 1)]), 0⟩ 5000 3600).2.1
      = ⟨some (.snapshot [("k", 1)]), 0⟩ := by
  refine ⟨by norm_num, ?_, rfl, rfl⟩
  rfl

/-- C2 counterexample: the round-trip claim quantifies over every mapping M,
but for the Shared-Cache Store with `M = []` and a pre-existing snapshot at
the key, `save()` skips the write (it still succeeds), and the fresh
session's `load()` returns the old snapshot `[(k, 1)]`, which differs from
`M` at key `k`. -/
theorem C2_roundtrip_counterexample :
    (SessionRedis.save ([] : Dict Nat)
        ⟨some (.snapshot [("k", 1)]), some 10⟩ 3600).1 = .ok () ∧
    (SessionRedis.load ([] : Dict Nat)
        (SessionRedis.save ([] : Dict Nat)
          ⟨some (.snapshot [("k", 1)]), some 10⟩ 3600).2.1).1 = .ok [("k", 1)] ∧
    Dict.get? ([("k", 1)] : Dict Nat) "k" ≠ Dict.get? ([] : Dict Nat) "k" := by
  refine ⟨rfl, rfl, by simp [Dict.get?]⟩

/-- C2 (amended): after `save()` succeeds, a fresh Session with the same ID
and backend kind (data starts empty, constructor triggers `load()`), with no
expiration elapsed and no intervening writes, holds exactly M — for the
File Store unconditionally, and for the Shared-Cache Store provided M is
non-empty or no prior snapshot exists at the remote key (an empty M makes
the Shared-Cache `save()` skip the write, so a prior snapshot survives). -/
theorem C2_roundtrip_amended {V : Type} (M : Dict V) (fs0 : FileState V)
    (rs0 : RedisState V) (tSave now expire : Int)
    (hnodup : (M.map Prod.fst).Nodup)
    (hfresh : ¬ now - tSave > expire) :
    (SessionFile.load [] (SessionFile.save M fs0 tSave).2.1 now expire).1
        = .ok M ∧
    (M ≠ [] ∨ rs0.store = none →
      (SessionRedis.load [] (SessionRedis.save M rs0 expire).2.1).1 = .ok M) := by
  constructor
  · simp only [SessionFile.save, SessionFile.load, pickleDumps, pickleLoads,
      ite_self]
    exact congrArg Except.ok (dict_update_nil M hnodup)
  · intro hcase
    rcases hcase with hM | hstore
    · have hlen : 0 < M.length := List.length_pos.mpr hM
      simp only [SessionRedis.save, if_pos hlen, SessionRedis.load,
        pickleDumps, pickleLoads]
      exact congrArg Except.ok (dict_update_nil M hnodup)
    · rcases M with _ | ⟨p, rest⟩
      · simp [SessionRedis.save, SessionRedis.load, hstore]
      · have hlen : 0 < ((p :: rest : Dict V)).length := by simp
        simp only [SessionRedis.save, if_pos hlen, SessionRedis.load,
          pickleDumps, pickleLoads]
        exact congrArg Except.ok (dict_update_nil _ hnodup)

/-- C2 witness: the amended round-trip at a concrete input — mapping
`[(a, 1)]` saved at time 0 and reloaded at time 10 with expire 3600 comes
back as `[(a, 1)]` for both backends. -/
theorem C2_roundtrip_amended_witness :
    (SessionFile.load [] (SessionFile.save [("a", (1 : Nat))] ⟨none, 0⟩ 0).2.1
        10 3600).1 = .ok [("a", 1)] ∧
    (SessionRedis.load []
        (SessionRedis.save [("a", (1 : Nat))] ⟨none, none⟩ 3600).2.1).1
      = .ok [("a", 1)] :=
  ⟨(C2_roundtrip_amended [("a", 1)] ⟨none, 0⟩ ⟨none, none⟩ 0 10 3600
      (by simp) (by norm_num)).1,
   (C2_roundtrip_amended [("a", 1)] ⟨none, 0⟩ ⟨none, none⟩ 0 10 3600
      (by simp) (by norm_num)).2 (.inl (by simp))⟩

/-- C3 counterexample: the claim says the File Store `save()` skips the
write when data is empty, preserving prior file content — but
`SessionFile.save` has no emptiness check: saving `[]` over a file holding
the snapshot `[(a, 1)]` truncates it to an empty snapshot. -/
theorem C3_file_save_empty_skip_counterexample :
    (SessionFile.save ([] : Dict Nat)
        ⟨some (.snapshot [("a", 1)]), 0⟩ 100).2.1.content = some (.snapshot []) ∧
    some (Blob.snapshot ([("a", 1)] : Dict Nat))
      ≠ some (Blob.snapshot ([] : Dict Nat)) := by
  refine ⟨rfl, by simp⟩

/-- C3 (amended): for the File Store, `save()` on a Session with empty data
does not skip the write: it succeeds and persists an empty snapshot,
overwriting any previously persisted file content (the skip-when-empty
policy belongs to the Shared-Cache Store, not the File Store). -/
theorem C3_file_save_empty_always_writes {V : Type} (fs : FileState V)
    (now : Int) :
    (SessionFile.save ([] : Dict V) fs now).1 = .ok () ∧
    (SessionFile.save ([] : Dict V) fs now).2.1.content
      = some (.snapshot []) :=
  ⟨rfl, rfl⟩

/-- C4: for the File Store, `save()` always writes the serialized snapshot
of `data` — the post-state is the snapshot with a fresh mtime regardless of
the prior file content (truncating overwrite), an open-for-write happens on
every save, and this holds for empty `data` too. -/
theorem C4_file_save_always_writes_snapshot {V : Type} (data : Dict V)
    (fs : FileState V) (now : Int) :
    (SessionFile.save data fs now).2.1
        = { content := some (.snapshot data), mtime := now } ∧
    Ev.fileOpenWrite ∈ (SessionFile.save data fs now).2.2 ∧
    (SessionFile.save ([] : Dict V) fs now).2.1.content
      = some (.snapshot []) :=
  ⟨rfl, by simp [SessionFile.save], rfl⟩

/-- C5: for the Shared-Cache Store, `save()` with an empty data mapping
performs no remote operation at all: the remote state (key and TTL) is
returned unchanged and the command trace is empty. -/
theorem C5_redis_save_empty_no_remote_op {V : Type} (rs : RedisState V)
    (expire : Int) :
    SessionRedis.save ([] : Dict V) rs expire = (.ok (), rs, []) :=
  rfl

/-- C6: for every Session and key, `get(key, default)` returns the default
and never raises when the key is absent while item-style read raises
`KeyError`; when the key is present both return the stored value. -/
theorem C6_get_vs_getitem {V : Type} (s : Dict V) (k : String) (d : Option V) :
    (s.get? k = none →
      Session.get s k d = d ∧ Session.getItem s k = .error .keyError) ∧
    (∀ v, s.get? k = some v →
      Session.get s k d = some v ∧ Session.getItem s k = .ok v) := by
  constructor
  · intro h
    simp [Session.get, Session.getItem, h]
  · intro v h
    simp [Session.get, Session.getItem, h]

/-- C6 witness: on the session `[(a, 2)]`, reading the absent key `b` with
`get` yields the default while item-style read raises `KeyError`; reading
the present key `a` yields 2 both ways. -/
theorem C6_get_vs_getitem_witness :
    (Dict.get? ([("a", 2)] : Dict Nat) "b" = none ∧
      Session.get ([("a", 2)] : Dict Nat) "b" none = none ∧
      Session.getItem ([("a", 2)] : Dict Nat) "b" = .error .keyError) ∧
    (Dict.get? ([("a", 2)] : Dict Nat) "a" = some 2 ∧
      Session.get ([("a", 2)] : Dict Nat) "a" none = some 2 ∧
      Session.getItem ([("a", 2)] : Dict Nat) "a" = .ok 2) := by
  have h1 : Dict.get? ([("a", 2)] : Dict Nat) "b" = none := by decide
  have h2 : Dict.get? ([("a", 2)] : Dict Nat) "a" = some 2 := by decide
  have r1 := (C6_get_vs_getitem ([("a", 2)] : Dict Nat) "b" none).1 h1
  have r2 := (C6_get_vs_getitem ([("a", 2)] : Dict Nat) "a" none).2 2 h2
  exact ⟨⟨h1, r1.1, r1.2⟩, ⟨h2, r2.1, r2.2⟩⟩

/-- C7: `clear()` is idempotent for both backends and a no-op with no
backend: each of two consecutive clears on a File Store or Shared-Cache
Store returns `ok` (never raises), leaves the in-memory data empty and the
file/remote key absent; with no backend bound, `clear()` raises nothing and
changes nothing. -/
theorem C7_clear_idempotent {V : Type} (data : Dict V) (fs : FileState V)
    (rs : RedisState V) :
    ((SessionFile.clear data fs).1 = .ok [] ∧
      (SessionFile.clear data fs).2.1.content = none ∧
      (SessionFile.clear [] (SessionFile.clear data fs).2.1).1 = .ok [] ∧
      (SessionFile.clear [] (SessionFile.clear data fs).2.1).2.1.content
        = none) ∧
    ((SessionRedis.clear data rs).1 = .ok [] ∧
      (SessionRedis.clear data rs).2.1.store = none ∧
      (SessionRedis.clear [] (SessionRedis.clear data rs).2.1).1 = .ok [] ∧
      (SessionRedis.clear [] (SessionRedis.clear data rs).2.1).2.1.store
        = none) ∧
    Session.clear data (BackendRef.noBackend (V := V))
      = (.ok data, .noBackend) := by
  refine ⟨?_, ⟨rfl, rfl, rfl, rfl⟩, rfl⟩
  rcases fs with ⟨c, mt⟩
  rcases c with _ | b <;>
    simp [SessionFile.clear, SessionFile.osUnlink]

/-- C8: every File Store operation (`load`, `save`, `clear`), on every
input — including the error path where `pickle.load` raises on a corrupt
file — emits a trace that acquires the one process-wide lock
(`globalLock`, shared by all File Store instances) as its first action,
releases it as its last action, and performs no lock operation in
between: the lock is held for the whole operation and released on every
path. -/
theorem C8_file_ops_hold_global_lock {V : Type} (data : Dict V)
    (fs : FileState V) (now expire : Int) :
    wellBracketed (SessionFile.load data fs now expire).2.2 = true ∧
    wellBracketed (SessionFile.save data fs now).2.2 = true ∧
    wellBracketed (SessionFile.clear data fs).2.2 = true := by
  refine ⟨?_, rfl, ?_⟩
  · rcases fs with ⟨c, mt⟩
    rcases c with _ | b
    · rfl
    · rcases b with d | _ <;> rfl
  · rcases fs with ⟨c, mt⟩
    rcases c with _ | b <;> rfl

/-- C9: `Session.__init__` stores the Latin-1-decoded string as the
Session's own id but passes the raw (post-callable, pre-normalization)
value to the backend factory, so for a bytes session ID both the
Shared-Cache key and the File Store file name embed the bytes object's
string representation `repr(bytes)`, which is never equal to the
normalized id. -/
theorem C9_backend_key_uses_raw_bytes_repr (bs : List Nat) (appRoot : String) :
    Session.initSessionId (.val (.bytes bs)) = latin1Decode bs ∧
    Session.initBackendSid (.val (.bytes bs)) = .bytes bs ∧
    redisKeyOf (Session.initBackendSid (.val (.bytes bs)))
        = "session:" ++ pyReprBytes bs ∧
    fileNameOf appRoot (Session.initBackendSid (.val (.bytes bs)))
        = appRoot ++ "/tmp/" ++ pyReprBytes bs ++ ".session" ∧
    pyReprBytes bs ≠ latin1Decode bs :=
  ⟨rfl, rfl, rfl, rfl, pyReprBytes_ne_latin1 bs⟩

/-- C10: the Shared-Cache `load()` leaves the remote state (including the
TTL) unchanged and issues neither a set nor an expire command; the TTL is
refreshed only by `save()`, and only when the data mapping is non-empty
(an empty save issues no command and leaves the TTL as it was). -/
theorem C10_redis_ttl_only_refreshed_by_nonempty_save {V : Type}
    (data : Dict V) (rs : RedisState V) (expire : Int) :
    ((SessionRedis.load data rs).2.1 = rs ∧
      ∀ c ∈ (SessionRedis.load data rs).2.2,
        c ≠ RCmd.rexpire ∧ c ≠ RCmd.rset) ∧
    (data = [] → SessionRedis.save data rs expire = (.ok (), rs, [])) ∧
    (data ≠ [] →
      (SessionRedis.save data rs expire).2.1.ttl = some expire ∧
      (SessionRedis.save data rs expire).2.2 = [RCmd.rset, RCmd.rexpire]) := by
  refine ⟨⟨?_, ?_⟩, ?_, ?_⟩
  · rcases rs with ⟨st, t⟩
    rcases st with _ | b
    · rfl
    · rcases b with d | _ <;> rfl
  · rcases rs with ⟨st, t⟩
    rcases st with _ | b
    · simp [SessionRedis.load]
    · rcases b with d | _ <;> simp [SessionRedis.load, pickleLoads]
  · intro h
    subst h
    rfl
  · intro h
    have hlen : 0 < data.length := List.length_pos.mpr h
    constructor <;> simp [SessionRedis.save, if_pos hlen]

/-- C10 witness: saving an empty mapping leaves a TTL of 5 untouched and
issues no command; saving `[(a, 1)]` with expire 99 sets the TTL to 99. -/
theorem C10_redis_ttl_witness :
    SessionRedis.save ([] : Dict Nat) ⟨none, some 5⟩ 99
        = (.ok (), ⟨none, some 5⟩, []) ∧
    (SessionRedis.save [("a", (1 : Nat))] ⟨none, none⟩ 99).2.1.ttl = some 99 :=
  ⟨(C10_redis_ttl_only_refreshed_by_nonempty_save [] ⟨none, some 5⟩ 99).2.1 rfl,
   ((C10_redis_ttl_only_refreshed_by_nonempty_save [("a", 1)] ⟨none, none⟩ 99).2.2
      (by simp)).1⟩

end Luxon
